import Mathlib

/-!
Verification of the AndOr web application core (src/app/routes.py).

The route handlers are embedded as pure Lean functions.  Side effects are
made explicit: flash messages accumulate into a list, the dataset layer is
an association list from string keys to records, and every dataset call the
handler issues is recorded in a trace (`StoreCall`).  HTTP responses are a
small inductive type (`Response`).

Code of the repository that is not in src/ (app/forms.py, app/models.py,
flask_login internals, the py_dataset engine) is modelled from the spec;
each such definition carries a doc comment starting with
"Modelled from the spec:".  In string literals, \x7b and \x7d denote the
literal curly-brace characters of the Python source.
-/

namespace AndOr

/-- Application configuration (`cfg` in routes.py): the names of the users
and objects collections. -/
structure Cfg where
  USERS : String
  OBJECTS : String
deriving Repr, DecidableEq

/-- The flask_login session state: either anonymous or bound to a username.
`current_user` in routes.py is a value of this type. -/
inductive Session where
  | anonymous : Session
  | authenticated (username : String) : Session
deriving Repr, DecidableEq

/-- `current_user.is_authenticated`. -/
def Session.is_authenticated : Session → Bool
  | .anonymous => false
  | .authenticated _ => true

/-- An HTTP-level response as the handlers produce it: `redirect(url_for(t))`,
`render_template(t, ...)`, or `abort(code)`. -/
inductive Response where
  | redirect (target : String) : Response
  | render (template : String) : Response
  | abort (code : Nat) : Response
deriving Repr, DecidableEq

/-- The People record of app/models.py as routes.py populates it: the
twenty fields assigned in the `people` handler, all carried as strings. -/
structure People where
  cl_people_id : String
  family_name : String
  given_name : String
  thesis_id : String
  authors_id : String
  archivesspace_id : String
  directory_id : String
  viaf : String
  lcnaf : String
  isni : String
  wikidata : String
  snac : String
  orcid : String
  image : String
  educated_at : String
  caltech : String
  jpl : String
  faculty : String
  alumn : String
  notes : String
deriving Repr, DecidableEq

/-- Modelled from the spec: `People.to_dict` (app/models.py is outside src/)
serialises the full record for the store; modelled as the record itself,
since the spec says a full record is always written with no merge or
partial-update semantics. -/
def People.to_dict (p : People) : People := p

/-- The validated field data of PeopleForm (app/forms.py): one `.data`
string per field read in the `people` handler. -/
structure PeopleForm where
  cl_people_id : String
  family_name : String
  given_name : String
  thesis_id : String
  authors_id : String
  archivesspace_id : String
  directory_id : String
  viaf : String
  lcnaf : String
  isni : String
  wikidata : String
  snac : String
  orcid : String
  image : String
  educated_at : String
  caltech : String
  jpl : String
  faculty : String
  alumn : String
  notes : String
deriving Repr, DecidableEq

/-- Modelled from the spec: `form.validate_on_submit()` for PeopleForm
(app/forms.py is outside src/).  The spec assigns exactly one validation
rule to this workflow: reject the record if `cl_people_id` is empty. -/
def validate_on_submit (f : PeopleForm) : Bool :=
  f.cl_people_id ≠ ""

/-- The field-by-field mapping in the `people` handler (routes.py lines
46-65): each form field is copied 1:1 onto a fresh People record. -/
def mapPeople (form : PeopleForm) : People :=
  { cl_people_id := form.cl_people_id
  , family_name := form.family_name
  , given_name := form.given_name
  , thesis_id := form.thesis_id
  , authors_id := form.authors_id
  , archivesspace_id := form.archivesspace_id
  , directory_id := form.directory_id
  , viaf := form.viaf
  , lcnaf := form.lcnaf
  , isni := form.isni
  , wikidata := form.wikidata
  , snac := form.snac
  , orcid := form.orcid
  , image := form.image
  , educated_at := form.educated_at
  , caltech := form.caltech
  , jpl := form.jpl
  , faculty := form.faculty
  , alumn := form.alumn
  , notes := form.notes }

/-- A collection of the key-value store: an association list from string
keys to records. -/
abbrev Objects := List (String × People)

/-- `dataset.has_key(c_name, key)`: whether the key is present in the
collection. -/
def has_key {α : Type} (coll : List (String × α)) (key : String) : Bool :=
  (coll.lookup key).isSome

/-- Modelled from the spec: the write a successful `create`/`update`
performs in the py_dataset engine — the full record replaces whatever was
stored under the key. -/
def storePut (objects : Objects) (key : String) (rec : People) : Objects :=
  (key, rec) :: objects.filter (fun kv => kv.1 ≠ key)

/-- Modelled from the spec: `dataset.update(c_name, key, rec)` returns an
empty string on success (the stored record is wholly overwritten) or a
non-empty error description on failure (store unchanged).  Whether the
underlying engine fails is injected through `err`. -/
def ds_update (err : String) (objects : Objects) (key : String)
    (rec : People) : String × Objects :=
  if err = "" then ("", storePut objects key rec) else (err, objects)

/-- Modelled from the spec: `dataset.create(c_name, key, rec)`, with the
same outcome contract as `ds_update`. -/
def ds_create (err : String) (objects : Objects) (key : String)
    (rec : People) : String × Objects :=
  if err = "" then ("", storePut objects key rec) else (err, objects)

/-- The outcomes the underlying store engine would return for the (at most
one) mutating call of a request. -/
structure StoreOutcome where
  createErr : String
  updateErr : String
deriving Repr, DecidableEq

/-- One dataset call issued by a handler, as recorded in the trace. -/
inductive StoreCall where
  | has_key (c_name key : String) : StoreCall
  | create (c_name key : String) (rec : People) : StoreCall
  | update (c_name key : String) (rec : People) : StoreCall
deriving Repr, DecidableEq

def StoreCall.isHasKey : StoreCall → Bool
  | .has_key _ _ => true
  | _ => false

def StoreCall.isCreate : StoreCall → Bool
  | .create _ _ _ => true
  | _ => false

def StoreCall.isUpdate : StoreCall → Bool
  | .update _ _ _ => true
  | _ => false

/-- Everything observable about one run of the `people` handler. -/
structure PeopleResult where
  response : Response
  flashes : List String
  calls : List StoreCall
  objects : Objects
deriving Repr, DecidableEq

/-- The `people` route handler (routes.py lines 38-82).  `form` is `none`
for a GET or a request that did not reach `validate_on_submit`; the four
flash literals are the plain (non-f-string) Python literals of the source,
braces written as \x7b/\x7d. -/
def people (cfg : Cfg) (current_user : Session) (form : Option PeopleForm)
    (oc : StoreOutcome) (objects : Objects) : PeopleResult :=
  if current_user.is_authenticated = false then
    { response := .redirect "login"
    , flashes := ["Must be logged in to curate objects"]
    , calls := []
    , objects := objects }
  else
    match form with
    | none =>
      { response := .render "people.html"
      , flashes := []
      , calls := []
      , objects := objects }
    | some f =>
      if validate_on_submit f then
        let p := mapPeople f
        let c_name := cfg.OBJECTS
        let key := p.cl_people_id
        if has_key objects key then
          let r := ds_update oc.updateErr objects key p.to_dict
          if r.1 ≠ "" then
            { response := .render "people.html"
            , flashes := ["WARNING: failed to update \x7bkey\x7d in \x7bc_name\x7d, \x7berr\x7d"]
            , calls := [.has_key c_name key, .update c_name key p.to_dict]
            , objects := r.2 }
          else
            { response := .render "people.html"
            , flashes := ["\x7bpeople.cl_people_id\x7d updated"]
            , calls := [.has_key c_name key, .update c_name key p.to_dict]
            , objects := r.2 }
        else
          let r := ds_create oc.createErr objects key p.to_dict
          if r.1 ≠ "" then
            { response := .render "people.html"
            , flashes := ["WARNING: failed to create \x7bkey\x7d in \x7bc_name\x7d, \x7berr\x7d"]
            , calls := [.has_key c_name key, .create c_name key p.to_dict]
            , objects := r.2 }
          else
            { response := .render "people.html"
            , flashes := ["\x7bpeople.cl_people_id\x7d created"]
            , calls := [.has_key c_name key, .create c_name key p.to_dict]
            , objects := r.2 }
      else
        { response := .render "people.html"
        , flashes := []
        , calls := []
        , objects := objects }

/-- The identity collection: username to stored password hash. -/
abbrev Users := List (String × String)

/-- Modelled from the spec: `User.check_password` of app/models.py (outside
src/) — compares the presented candidate against the stored hash for that
username; a username absent from the identity collection never verifies.
`hashPw` abstracts the hashing function. -/
def check_password (hashPw : String → String) (users : Users)
    (username candidate : String) : Bool :=
  match users.lookup username with
  | some stored_hash => hashPw candidate = stored_hash
  | none => false

/-- The validated field data of LoginForm. -/
structure LoginForm where
  username : String
  password : String
  remember_me : Bool
deriving Repr, DecidableEq

/-- Everything observable about one run of the `login` handler. -/
structure LoginResult where
  response : Response
  flashes : List String
  session : Session
  calls : List StoreCall
deriving Repr, DecidableEq

/-- The `login` route handler (routes.py lines 85-106).  `User(username)`
is constructed directly from the submitted username — the handler issues
no dataset call of its own; verification happens inside `check_password`.
On failure it flashes and returns `abort(401)`; on success `login_user`
binds the identity to the session and it redirects to the index view. -/
def login (hashPw : String → String) (users : Users)
    (current_user : Session) (form : Option LoginForm) : LoginResult :=
  if current_user.is_authenticated then
    { response := .redirect "index"
    , flashes := ["DEBUG current user is authenticated, redirecting"]
    , session := current_user
    , calls := [] }
  else
    match form with
    | none =>
      { response := .render "login.html"
      , flashes := []
      , session := current_user
      , calls := [] }
    | some f =>
      if check_password hashPw users f.username f.password = false then
        { response := .abort 401
        , flashes := ["DEBUG " ++ f.username ++ " or password not found"
                     , "Invalid username or password"]
        , session := current_user
        , calls := [] }
      else
        { response := .redirect "index"
        , flashes := ["DEBUG current user is successfully logged in, " ++ f.username
                     , "DEBUG redirecting to /"
                     , "Logged in successfully."]
        , session := .authenticated f.username
        , calls := [] }

/-- Everything observable about one run of the `logout` handler. -/
structure LogoutResult where
  response : Response
  session : Session
deriving Repr, DecidableEq

/-- The `logout` route handler (routes.py lines 108-111): `logout_user()`
unconditionally clears the session identity, then redirect to the index
view. -/
def logout (_current_user : Session) : LogoutResult :=
  { response := .redirect "index"
  , session := .anonymous }

/-- A loaded User identity as `load_user` returns it. -/
structure User where
  username : String
deriving Repr, DecidableEq

/-- The `load_user` session-restoration callback (routes.py lines 8-16):
when the user id is not a key of the USERS collection it returns None
(here `none`); otherwise it constructs and returns `User(user_id)`. -/
def load_user (users : Users) (user_id : String) : Option User :=
  if has_key users user_id = false then
    none
  else
    some { username := user_id }

/-- Modelled from the spec: flask_login session restoration around
`load_user` — when the loader returns no identity the session fails open
to Anonymous; otherwise the loaded identity is bound. -/
def restore_session (users : Users) (user_id : String) : Session :=
  match load_user users user_id with
  | none => .anonymous
  | some u => .authenticated u.username

/-! ### Concrete sample values used by the witnesses -/

def sampleCfg : Cfg :=
  { USERS := "users.ds", OBJECTS := "objects.ds" }

def sampleForm : PeopleForm :=
  { cl_people_id := "smith-j"
  , family_name := "Smith"
  , given_name := "Jane"
  , thesis_id := ""
  , authors_id := ""
  , archivesspace_id := ""
  , directory_id := ""
  , viaf := ""
  , lcnaf := ""
  , isni := ""
  , wikidata := ""
  , snac := ""
  , orcid := ""
  , image := ""
  , educated_at := ""
  , caltech := ""
  , jpl := ""
  , faculty := ""
  , alumn := ""
  , notes := "" }

def sampleForm2 : PeopleForm :=
  { sampleForm with family_name := "Smith-Jones", given_name := "" }

def emptyIdForm : PeopleForm :=
  { sampleForm with cl_people_id := "" }

def sampleOutcome : StoreOutcome :=
  { createErr := "", updateErr := "" }

def failOutcome : StoreOutcome :=
  { createErr := "disk full", updateErr := "disk full" }

def sampleStore : Objects :=
  [("smith-j", mapPeople sampleForm)]

/-! ### Helper lemmas -/

theorem ds_update_fst (err : String) (objects : Objects) (key : String)
    (rec : People) : (ds_update err objects key rec).1 = err := by
  unfold ds_update
  split <;> simp_all

theorem ds_create_fst (err : String) (objects : Objects) (key : String)
    (rec : People) : (ds_create err objects key rec).1 = err := by
  unfold ds_create
  split <;> simp_all

/-! ### Theorems -/

/-- C5: a request to /people while the session is Anonymous redirects to the
login view, issues no store calls, and leaves the objects collection
untouched (the upsert never runs). -/
theorem people_anonymous_redirects_no_store_calls
    (cfg : Cfg) (current_user : Session) (form : Option PeopleForm)
    (oc : StoreOutcome) (objects : Objects)
    (hanon : current_user.is_authenticated = false) :
    people cfg current_user form oc objects =
      { response := .redirect "login"
      , flashes := ["Must be logged in to curate objects"]
      , calls := []
      , objects := objects } := by
  unfold people
  rw [hanon]
  rfl

theorem people_anonymous_redirects_no_store_calls_witness :
    Session.is_authenticated .anonymous = false
    ∧ people sampleCfg .anonymous (some sampleForm) sampleOutcome [] =
      { response := .redirect "login"
      , flashes := ["Must be logged in to curate objects"]
      , calls := []
      , objects := [] } :=
  ⟨rfl, people_anonymous_redirects_no_store_calls sampleCfg .anonymous
    (some sampleForm) sampleOutcome [] rfl⟩

/-- C7: logout unconditionally clears the bound identity and redirects to
the home view, and it is idempotent — logging out an already-anonymous
session is a no-op success, and logout after logout equals a single
logout. -/
theorem logout_clears_session_and_idempotent (s : Session) :
    (logout s).session = .anonymous
    ∧ (logout s).response = .redirect "index"
    ∧ logout ((logout s).session) = logout s
    ∧ (logout .anonymous).session = .anonymous := by
  refine ⟨rfl, rfl, rfl, rfl⟩

/-- C8: for a user id absent from the identity collection, load_user
returns no identity (None) rather than raising, and session restoration
fails open to an Anonymous session. -/
theorem load_user_absent_yields_none
    (users : Users) (user_id : String)
    (habs : users.lookup user_id = none) :
    load_user users user_id = none
    ∧ restore_session users user_id = .anonymous := by
  have h : has_key users user_id = false := by
    simp [has_key, habs]
  constructor
  · simp [load_user, h]
  · simp [restore_session, load_user, h]

theorem load_user_absent_yields_none_witness :
    ([("alice", "h1")] : Users).lookup "mallory" = none
    ∧ load_user [("alice", "h1")] "mallory" = none
    ∧ restore_session [("alice", "h1")] "mallory" = .anonymous := by
  refine ⟨by decide, ?_, ?_⟩
  · exact (load_user_absent_yields_none [("alice", "h1")] "mallory" (by decide)).1
  · exact (load_user_absent_yields_none [("alice", "h1")] "mallory" (by decide)).2

/-- C1: on a validated People submission the handler checks key existence
exactly once, and that result alone decides the write: present key → one
update and no create; absent key → one create and no update; in either
branch the argument written is the full mapped record (to_dict of
mapPeople), independent of anything previously stored. -/
theorem people_upsert_existence_decides_write
    (cfg : Cfg) (cu : Session) (f : PeopleForm) (oc : StoreOutcome)
    (objects : Objects)
    (hauth : cu.is_authenticated = true)
    (hval : validate_on_submit f = true) :
    ((people cfg cu (some f) oc objects).calls.countP StoreCall.isHasKey = 1)
    ∧ (has_key objects (mapPeople f).cl_people_id = true →
        (people cfg cu (some f) oc objects).calls =
          [ .has_key cfg.OBJECTS (mapPeople f).cl_people_id
          , .update cfg.OBJECTS (mapPeople f).cl_people_id (mapPeople f).to_dict ])
    ∧ (has_key objects (mapPeople f).cl_people_id = false →
        (people cfg cu (some f) oc objects).calls =
          [ .has_key cfg.OBJECTS (mapPeople f).cl_people_id
          , .create cfg.OBJECTS (mapPeople f).cl_people_id (mapPeople f).to_dict ]) := by
  unfold people
  rw [hauth]
  simp only [Bool.true_eq_false, if_false, hval, if_true]
  by_cases hk : has_key objects (mapPeople f).cl_people_id
  · rw [if_pos hk]
    by_cases he : (ds_update oc.updateErr objects (mapPeople f).cl_people_id
        (mapPeople f).to_dict).1 ≠ ""
    · rw [if_pos he]
      refine ⟨by simp [List.countP, List.countP.go, StoreCall.isHasKey],
        fun _ => rfl, fun h => by simp [hk] at h⟩
    · rw [if_neg he]
      refine ⟨by simp [List.countP, List.countP.go, StoreCall.isHasKey],
        fun _ => rfl, fun h => by simp [hk] at h⟩
  · rw [if_neg hk]
    by_cases he : (ds_create oc.createErr objects (mapPeople f).cl_people_id
        (mapPeople f).to_dict).1 ≠ ""
    · rw [if_pos he]
      refine ⟨by simp [List.countP, List.countP.go, StoreCall.isHasKey],
        fun h => by simp [h] at hk, fun _ => rfl⟩
    · rw [if_neg he]
      refine ⟨by simp [List.countP, List.countP.go, StoreCall.isHasKey],
        fun h => by simp [h] at hk, fun _ => rfl⟩

theorem people_upsert_existence_decides_write_witness :
    Session.is_authenticated (.authenticated "curator") = true
    ∧ validate_on_submit sampleForm = true
    ∧ has_key ([] : Objects) (mapPeople sampleForm).cl_people_id = false
    ∧ (people sampleCfg (.authenticated "curator") (some sampleForm)
        sampleOutcome []).calls =
      [ .has_key sampleCfg.OBJECTS (mapPeople sampleForm).cl_people_id
      , .create sampleCfg.OBJECTS (mapPeople sampleForm).cl_people_id
          (mapPeople sampleForm).to_dict ] :=
  ⟨rfl, by decide, rfl,
    (people_upsert_existence_decides_write sampleCfg (.authenticated "curator")
      sampleForm sampleOutcome [] rfl (by decide)).2.2 rfl⟩

/-- C2: when the store create or update returns a non-empty error on a
validated submission, the handler flashes a WARNING and still completes by
rendering the people view — and that same view is rendered regardless of
the persistence outcome (no abort, no redirect). -/
theorem people_store_failure_warns_and_renders
    (cfg : Cfg) (cu : Session) (f : PeopleForm) (oc : StoreOutcome)
    (objects : Objects)
    (hauth : cu.is_authenticated = true)
    (hval : validate_on_submit f = true) :
    ((people cfg cu (some f) oc objects).response = .render "people.html")
    ∧ (has_key objects (mapPeople f).cl_people_id = true → oc.updateErr ≠ "" →
        (people cfg cu (some f) oc objects).flashes =
          ["WARNING: failed to update \x7bkey\x7d in \x7bc_name\x7d, \x7berr\x7d"])
    ∧ (has_key objects (mapPeople f).cl_people_id = false → oc.createErr ≠ "" →
        (people cfg cu (some f) oc objects).flashes =
          ["WARNING: failed to create \x7bkey\x7d in \x7bc_name\x7d, \x7berr\x7d"]) := by
  unfold people
  rw [hauth]
  simp only [Bool.true_eq_false, if_false, hval, if_true]
  by_cases hk : has_key objects (mapPeople f).cl_people_id
  · rw [if_pos hk]
    rw [ds_update_fst]
    by_cases he : oc.updateErr = ""
    · rw [if_neg (by simp [he])]
      exact ⟨rfl, fun _ hne => absurd he hne, fun h => by simp [hk] at h⟩
    · rw [if_pos he]
      exact ⟨rfl, fun _ _ => rfl, fun h => by simp [hk] at h⟩
  · rw [if_neg hk]
    rw [ds_create_fst]
    by_cases he : oc.createErr = ""
    · rw [if_neg (by simp [he])]
      exact ⟨rfl, fun h => by simp [h] at hk, fun _ hne => absurd he hne⟩
    · rw [if_pos he]
      exact ⟨rfl, fun h => by simp [h] at hk, fun _ _ => rfl⟩

theorem people_store_failure_warns_and_renders_witness :
    Session.is_authenticated (.authenticated "curator") = true
    ∧ validate_on_submit sampleForm = true
    ∧ has_key sampleStore (mapPeople sampleForm).cl_people_id = true
    ∧ failOutcome.updateErr ≠ ""
    ∧ ((people sampleCfg (.authenticated "curator") (some sampleForm)
          failOutcome sampleStore).response = .render "people.html")
    ∧ (people sampleCfg (.authenticated "curator") (some sampleForm)
        failOutcome sampleStore).flashes =
      ["WARNING: failed to update \x7bkey\x7d in \x7bc_name\x7d, \x7berr\x7d"] := by
  have h := people_store_failure_warns_and_renders sampleCfg
    (.authenticated "curator") sampleForm failOutcome sampleStore rfl (by decide)
  exact ⟨rfl, by decide, by decide, by decide, h.1, h.2.1 (by decide) (by decide)⟩

/-- C3: a submission whose cl_people_id is the empty string is rejected by
validation: the form view is re-rendered with no store call of any kind
(no has_key, create, or update) and the store untouched. -/
theorem people_empty_key_rejected_no_persistence
    (cfg : Cfg) (cu : Session) (f : PeopleForm) (oc : StoreOutcome)
    (objects : Objects)
    (hauth : cu.is_authenticated = true)
    (hempty : f.cl_people_id = "") :
    people cfg cu (some f) oc objects =
      { response := .render "people.html"
      , flashes := []
      , calls := []
      , objects := objects } := by
  have hv : validate_on_submit f = false := by
    simp [validate_on_submit, hempty]
  unfold people
  rw [hauth]
  simp only [Bool.true_eq_false, if_false, hv, Bool.false_eq_true, if_false]

theorem people_empty_key_rejected_no_persistence_witness :
    Session.is_authenticated (.authenticated "curator") = true
    ∧ emptyIdForm.cl_people_id = ""
    ∧ people sampleCfg (.authenticated "curator") (some emptyIdForm)
        sampleOutcome sampleStore =
      { response := .render "people.html"
      , flashes := []
      , calls := []
      , objects := sampleStore } :=
  ⟨rfl, rfl, people_empty_key_rejected_no_persistence sampleCfg
    (.authenticated "curator") emptyIdForm sampleOutcome sampleStore rfl rfl⟩

/-- C6: a validated submission whose key is already present produces
exactly one update call and no create call, and on success the stored
record is fully overwritten by the mapped submission — every field of the
stored record comes from the form (a blank field stays blank, not the
prior value). -/
theorem people_existing_key_full_overwrite
    (cfg : Cfg) (cu : Session) (f : PeopleForm) (oc : StoreOutcome)
    (objects : Objects)
    (hauth : cu.is_authenticated = true)
    (hval : validate_on_submit f = true)
    (hk : has_key objects (mapPeople f).cl_people_id = true) :
    ((people cfg cu (some f) oc objects).calls.countP StoreCall.isUpdate = 1)
    ∧ ((people cfg cu (some f) oc objects).calls.countP StoreCall.isCreate = 0)
    ∧ (oc.updateErr = "" →
        ((people cfg cu (some f) oc objects).objects.lookup
          (mapPeople f).cl_people_id = some (mapPeople f)))
    ∧ (mapPeople f).given_name = f.given_name := by
  unfold people
  rw [hauth]
  simp only [Bool.true_eq_false, if_false, hval, if_true]
  rw [if_pos hk, ds_update_fst]
  by_cases he : oc.updateErr = ""
  · rw [if_neg (by simp [he])]
    refine ⟨by simp [List.countP, List.countP.go, StoreCall.isUpdate],
      by simp [List.countP, List.countP.go, StoreCall.isCreate],
      fun _ => ?_, rfl⟩
    simp [ds_update, he, storePut, People.to_dict, List.lookup]
  · rw [if_pos he]
    exact ⟨by simp [List.countP, List.countP.go, StoreCall.isUpdate],
      by simp [List.countP, List.countP.go, StoreCall.isCreate],
      fun h => absurd h he, rfl⟩

theorem people_existing_key_full_overwrite_witness :
    Session.is_authenticated (.authenticated "curator") = true
    ∧ validate_on_submit sampleForm2 = true
    ∧ has_key sampleStore (mapPeople sampleForm2).cl_people_id = true
    ∧ (people sampleCfg (.authenticated "curator") (some sampleForm2)
        sampleOutcome sampleStore).objects.lookup
        (mapPeople sampleForm2).cl_people_id = some (mapPeople sampleForm2)
    ∧ (mapPeople sampleForm2).given_name = "" := by
  have h := people_existing_key_full_overwrite sampleCfg
    (.authenticated "curator") sampleForm2 sampleOutcome sampleStore
    rfl (by decide) (by decide)
  exact ⟨rfl, by decide, by decide, h.2.2.1 rfl, rfl⟩

/-- C9: the four outcome flash messages of the upsert are constants with
unresolved curly-brace placeholder text (the literal characters of
"\x7bkey\x7d", "\x7bc_name\x7d", "\x7berr\x7d",
"\x7bpeople.cl_people_id\x7d"), identical for every key, collection and
error value — the interpolation is broken. -/
theorem people_flash_literal_placeholders
    (cfg : Cfg) (cu : Session) (f : PeopleForm) (oc : StoreOutcome)
    (objects : Objects)
    (hauth : cu.is_authenticated = true)
    (hval : validate_on_submit f = true) :
    (has_key objects (mapPeople f).cl_people_id = true → oc.updateErr ≠ "" →
      (people cfg cu (some f) oc objects).flashes =
        ["WARNING: failed to update \x7bkey\x7d in \x7bc_name\x7d, \x7berr\x7d"])
    ∧ (has_key objects (mapPeople f).cl_people_id = true → oc.updateErr = "" →
      (people cfg cu (some f) oc objects).flashes =
        ["\x7bpeople.cl_people_id\x7d updated"])
    ∧ (has_key objects (mapPeople f).cl_people_id = false → oc.createErr ≠ "" →
      (people cfg cu (some f) oc objects).flashes =
        ["WARNING: failed to create \x7bkey\x7d in \x7bc_name\x7d, \x7berr\x7d"])
    ∧ (has_key objects (mapPeople f).cl_people_id = false → oc.createErr = "" →
      (people cfg cu (some f) oc objects).flashes =
        ["\x7bpeople.cl_people_id\x7d created"]) := by
  unfold people
  rw [hauth]
  simp only [Bool.true_eq_false, if_false, hval, if_true]
  by_cases hk : has_key objects (mapPeople f).cl_people_id
  · rw [if_pos hk, ds_update_fst]
    by_cases he : oc.updateErr = ""
    · rw [if_neg (by simp [he])]
      exact ⟨fun _ hne => absurd he hne, fun _ _ => rfl,
        fun h => by simp [hk] at h, fun h => by simp [hk] at h⟩
    · rw [if_pos he]
      exact ⟨fun _ _ => rfl, fun _ h => absurd h he,
        fun h => by simp [hk] at h, fun h => by simp [hk] at h⟩
  · rw [if_neg hk, ds_create_fst]
    by_cases he : oc.createErr = ""
    · rw [if_neg (by simp [he])]
      exact ⟨fun h => by simp [h] at hk, fun h => by simp [h] at hk,
        fun _ hne => absurd he hne, fun _ _ => rfl⟩
    · rw [if_pos he]
      exact ⟨fun h => by simp [h] at hk, fun h => by simp [h] at hk,
        fun _ _ => rfl, fun _ h => absurd h he⟩

theorem people_flash_literal_placeholders_witness :
    Session.is_authenticated (.authenticated "curator") = true
    ∧ validate_on_submit sampleForm2 = true
    ∧ has_key sampleStore (mapPeople sampleForm2).cl_people_id = true
    ∧ (people sampleCfg (.authenticated "curator") (some sampleForm2)
        sampleOutcome sampleStore).flashes =
      ["\x7bpeople.cl_people_id\x7d updated"] := by
  have h := people_flash_literal_placeholders sampleCfg
    (.authenticated "curator") sampleForm2 sampleOutcome sampleStore
    rfl (by decide)
  exact ⟨rfl, by decide, by decide, h.2.1 (by decide) rfl⟩

/-- C4: when the presented password does not match the stored hash for the
submitted username (including a username with no stored record), login
fails with abort(401), no session is established, and the session remains
Anonymous. -/
theorem login_bad_password_unauthorized
    (hashPw : String → String) (users : Users) (f : LoginForm)
    (hmis : ∀ h, users.lookup f.username = some h → hashPw f.password ≠ h) :
    (login hashPw users .anonymous (some f)).response = .abort 401
    ∧ (login hashPw users .anonymous (some f)).session = .anonymous := by
  have hcp : check_password hashPw users f.username f.password = false := by
    unfold check_password
    cases hl : users.lookup f.username with
    | none => rfl
    | some h => simp [hmis h hl]
  constructor <;> simp [login, Session.is_authenticated, hcp]

theorem login_bad_password_unauthorized_witness :
    (∀ h, ([("alice", "secret")] : Users).lookup "alice" = some h →
      (fun s => s) "wrong" ≠ h)
    ∧ (login (fun s => s) [("alice", "secret")] .anonymous
        (some { username := "alice", password := "wrong", remember_me := false })).response = .abort 401
    ∧ (login (fun s => s) [("alice", "secret")] .anonymous
        (some { username := "alice", password := "wrong", remember_me := false })).session = .anonymous := by
  have hmis : ∀ h, ([("alice", "secret")] : Users).lookup "alice" = some h →
      (fun s => s) "wrong" ≠ h := by
    intro h hl
    have hh : h = "secret" := by simp_all
    subst hh
    decide
  have h := login_bad_password_unauthorized (fun s => s) [("alice", "secret")]
    { username := "alice", password := "wrong", remember_me := false } hmis
  exact ⟨hmis, h.1, h.2⟩

/-- C10: the login handler makes no dataset call of its own (no existence
check of the submitted username before constructing the User), and the
boolean result of check_password alone decides acceptance versus the 401
rejection: two identity stores and hash functions on which check_password
agrees produce identical login results, and the response is redirect on
true, abort 401 on false, with no distinct not-found branch. -/
theorem login_decided_solely_by_check_password
    (hashPw₁ hashPw₂ : String → String) (users₁ users₂ : Users)
    (cu : Session) (f : LoginForm)
    (hanon : cu.is_authenticated = false)
    (hagree : check_password hashPw₁ users₁ f.username f.password =
              check_password hashPw₂ users₂ f.username f.password) :
    ((login hashPw₁ users₁ cu (some f)).calls = [])
    ∧ ((login hashPw₁ users₁ cu (some f)).response =
        if check_password hashPw₁ users₁ f.username f.password
        then .redirect "index" else .abort 401)
    ∧ login hashPw₁ users₁ cu (some f) = login hashPw₂ users₂ cu (some f) := by
  have h2 : check_password hashPw₂ users₂ f.username f.password =
      check_password hashPw₁ users₁ f.username f.password := hagree.symm
  cases hc : check_password hashPw₁ users₁ f.username f.password <;>
    refine ⟨?_, ?_, ?_⟩ <;>
    simp [login, hanon, hc, h2, hc ▸ h2]

theorem login_decided_solely_by_check_password_witness :
    (Session.is_authenticated .anonymous = false)
    ∧ (check_password (fun s => s) [("alice", "pw")] "alice" "pw" =
        check_password (fun s => s ++ "!") [("alice", "pw!")] "alice" "pw")
    ∧ ((login (fun s => s) [("alice", "pw")] .anonymous
        (some { username := "alice", password := "pw", remember_me := false })).calls = [])
    ∧ login (fun s => s) [("alice", "pw")] .anonymous
        (some { username := "alice", password := "pw", remember_me := false }) =
      login (fun s => s ++ "!") [("alice", "pw!")] .anonymous
        (some { username := "alice", password := "pw", remember_me := false }) := by
  have h := login_decided_solely_by_check_password (fun s => s)
    (fun s => s ++ "!") [("alice", "pw")] [("alice", "pw!")] .anonymous
    { username := "alice", password := "pw", remember_me := false } rfl rfl
  exact ⟨rfl, rfl, h.1, h.2.2⟩

end AndOr
